import Mathlib

/-!
# Renovation-AI lead lifecycle: shallow embedding

This file embeds the lead-lifecycle core of the repository in Lean 4:

* `src/backend/server.js` — the Express server.  Routes 7-10 are embedded
  as pure state-passing functions: `captureLead` (POST /api/lead, the
  "DATABASE VERSION" which inserts into the Postgres `leads` table),
  `listLeads` (GET /api/company/:companyId/leads, which reads the
  process-wide in-memory `leads` array), `updateLead`
  (PUT /api/lead/:leadId, also over the in-memory array) and `getStats`
  (GET /api/company/:companyId/stats).
* `src/unnamed/part_001` — the cron email-automation module: the three
  follow-up stage queries and their flag updates are embedded as
  `sendFollowUpEmails` over the database lead table, with an oracle
  `sendOk : String → Bool` standing for the outcome of each
  `sgMail.send` call (keyed by lead id).
* `src/backend/setup-database.js` — the `leads` table schema: column
  defaults (`status 'new'`, the three `follow_up_*_sent BOOLEAN DEFAULT
  false`) and the `company_id REFERENCES companies(id)` foreign key are
  reflected in `captureLead`.

The server keeps two distinct lead stores: the Postgres table
(`dbLeads`, rows `DbLead`, timestamps modelled as `Nat` epoch
milliseconds) and the in-memory demo array (`memLeads`, objects
`MemLead`, timestamps modelled as ISO-8601 `String`s exactly as
`new Date().toISOString()` produces, compared lexicographically, which
agrees with chronological order for such strings).  Likewise there is an
in-memory `companies` map and a database `companies` table
(`dbCompanies`).  JavaScript truthiness of request fields is modelled by
`truthyStr` / `truthyInt`.  `Number.prototype.toFixed` is modelled on
exact rationals by `toFixedOne` / `toFixedTwo` (round to nearest,
ties away from zero upward, matching ECMA-262 toFixed's "pick the larger
n" tie rule on exactly-representable values).
-/

/-- One row of the Postgres `leads` table (setup-database.js lines 36-60,
restricted to the columns the embedded routes read or write). -/
structure DbLead where
  id : String
  company_id : String
  customer_name : String
  email : String
  phone : String
  original_image : Option String
  generated_image : Option String
  prompt : Option String
  reference_code : String
  status : String
  project_value : Option Int
  won_date : Option Nat
  follow_up_1_sent : Bool
  follow_up_2_sent : Bool
  follow_up_3_sent : Bool
  created_at : Nat
  updated_at : Nat
  deriving Repr, DecidableEq

/-- One element of the in-memory `leads` array (server.js lines 16 and
568-587).  The demo-seed objects carry no follow-up flags; they are kept
here as always-`false` fields so that their preservation by the update
endpoint can be stated. -/
structure MemLead where
  id : String
  companyId : String
  customerName : String
  email : String
  phone : String
  postcode : String
  projectBudget : String
  startDate : String
  notes : String
  originalImage : String
  generatedImage : String
  prompt : String
  status : String
  projectValue : Option Int
  wonDate : Option String
  followUp1Sent : Bool
  followUp2Sent : Bool
  followUp3Sent : Bool
  createdAt : String
  updatedAt : String
  deriving Repr, DecidableEq

/-- A company record, used both for the in-memory `companies` map and the
Postgres `companies` table. -/
structure Company where
  id : String
  apiKey : String
  name : String
  email : String
  password : String
  phone : String
  website : String
  trade : String
  commissionRate : Rat
  status : String
  createdAt : String
  trialEndsAt : String
  deriving Repr, DecidableEq

/-- The whole mutable state the embedded routes touch: the two lead
stores and the two company stores. -/
structure ServerState where
  companies : List Company
  dbCompanies : List Company
  memLeads : List MemLead
  dbLeads : List DbLead
  deriving Repr, DecidableEq

/-- JavaScript truthiness of an optional request string: `undefined` and
`""` are falsy. -/
def truthyStr : Option String → Bool
  | none => false
  | some s => !s.isEmpty

/-- JavaScript truthiness of an optional request number: `undefined` and
`0` are falsy. -/
def truthyInt : Option Int → Bool
  | none => false
  | some v => v != 0

/-- `new Date().toISOString()`-style comparison is not needed for the
database side; one day in epoch milliseconds. -/
def day : Nat := 24 * 60 * 60 * 1000

/-- Response of POST /api/lead. -/
inductive CaptureResp where
  | ok (leadId : String) (referenceCode : String)
  | badRequest (error : String)
  | serverError (error : String)
  deriving Repr, DecidableEq

/-- An outbound email message (SendGrid `msg` object, restricted to the
`to` recipient — renamed `recipient` here — and `subject`). -/
structure EmailMsg where
  recipient : String
  subject : String
  deriving Repr, DecidableEq

/-- Result of running the POST /api/lead handler: the new server state,
the HTTP response, and the emails dispatched while handling the request. -/
structure CaptureOut where
  state : ServerState
  resp : CaptureResp
  emails : List EmailMsg
  deriving Repr, DecidableEq

/-- The decimal-digit characters. -/
def decDigitChars : List Char :=
  ['0', '1', '2', '3', '4']
    ++ ['5', '6', '7', '8', '9']

/-- The six letters hex notation adds. -/
def hexLetterChars : List Char :=
  ['a', 'b', 'c']
    ++ ['d', 'e', 'f']

/-- The sixteen characters uuidv4's canonical form uses outside its
dashes (the `uuid` library emits lowercase hex). -/
def hexLowerChars : List Char := decDigitChars ++ hexLetterChars

/-- Is `c` a lowercase hex digit? -/
def isHexLowerDigit (c : Char) : Bool := decide (c ∈ hexLowerChars)

/-- The uppercase hex letters (Postgres's uuid input also accepts
them). -/
def hexUpperLetterChars : List Char :=
  ['A', 'B', 'C']
    ++ ['D', 'E', 'F']

/-- Is `c` a hex digit of either case? -/
def isHexDigitChar (c : Char) : Bool :=
  isHexLowerDigit c || decide (c ∈ hexUpperLetterChars)

/-- Is `c` an uppercase alphanumeric character (digit or A-Z)? -/
def isUpperAlnum (c : Char) : Bool := c.isDigit || ('A' ≤ c && c ≤ 'Z')

/-- Does `s` have the 8-4-4-4-12 hex-groups-with-dashes shape that the
Postgres `UUID` column type accepts (and that `uuidv4()` always emits,
in lowercase)? -/
def isUuidString (s : String) : Bool :=
  let cs := s.toList
  decide (cs.length = 36)
    && (cs.take 8).all isHexDigitChar
    && (cs.getD 8 ' ' == '-')
    && ((cs.drop 9).take 4).all isHexDigitChar
    && (cs.getD 13 ' ' == '-')
    && ((cs.drop 14).take 4).all isHexDigitChar
    && (cs.getD 18 ' ' == '-')
    && ((cs.drop 19).take 4).all isHexDigitChar
    && (cs.getD 23 ' ' == '-')
    && (cs.drop 24).all isHexDigitChar

/-- The reference-code derivation of server.js line 329:
`'RV-' + leadId.substring(0, 8).toUpperCase()`. -/
def mkReferenceCode (leadId : String) : String :=
  "RV-" ++ String.mk ((leadId.toList.take 8).map Char.toUpper)

/-- POST /api/lead (server.js lines 310-354, the "DATABASE VERSION").
Validates the four required fields by JS truthiness, then INSERTs into
the `leads` table; the insert throws — and the handler answers 500 with
nothing persisted — whenever a table constraint of
setup-database.js lines 36-60 rejects the row:
* the `id UUID PRIMARY KEY` collides with an existing row, or the id
  string is not a valid uuid literal for the `UUID` column type;
* the `company_id` foreign key does not reference an existing
  `companies` row (`company_id` is `TEXT` after the part_000 migration,
  so it carries no length or uuid constraint of its own);
* `customer_name VARCHAR(255)`, `email VARCHAR(255)` or
  `phone VARCHAR(50)` overflows its length bound (Postgres counts
  characters; modelled with `String.length`).
The remaining inserted columns cannot throw: `reference_code` is always
11 characters (fits `VARCHAR(20)`), `'new'` fits `status VARCHAR(50)`,
and `original_image`/`generated_image`/`prompt` are unbounded `TEXT`.
Unlisted columns take their schema defaults: status `'new'`, all three
follow-up flags `false`, `created_at`/`updated_at` the current
timestamp.  The comment at line 341 (`TODO: Send emails`) is the entire
notification dispatch: no email is sent. -/
def captureLead (st : ServerState) (companyId customerName email phone : Option String)
    (originalImage generatedImage prompt : Option String)
    (leadId : String) (now : Nat) : CaptureOut :=
  if !truthyStr companyId || !truthyStr customerName || !truthyStr email || !truthyStr phone then
    { state := st, resp := .badRequest "Missing required fields", emails := [] }
  else
    let cid := companyId.getD ""
    let referenceCode := mkReferenceCode leadId
    if st.dbLeads.any (fun l => l.id == leadId) || !st.dbCompanies.any (fun c => c.id == cid)
        || !isUuidString leadId
        || decide (255 < (customerName.getD "").length)
        || decide (255 < (email.getD "").length)
        || decide (50 < (phone.getD "").length) then
      { state := st, resp := .serverError "Failed to capture lead", emails := [] }
    else
      let newLead : DbLead :=
        { id := leadId
          company_id := cid
          customer_name := customerName.getD ""
          email := email.getD ""
          phone := phone.getD ""
          original_image := originalImage
          generated_image := generatedImage
          prompt := prompt
          reference_code := referenceCode
          status := "new"
          project_value := none
          won_date := none
          follow_up_1_sent := false
          follow_up_2_sent := false
          follow_up_3_sent := false
          created_at := now
          updated_at := now }
      { state := { st with dbLeads := st.dbLeads ++ [newLead] }
        resp := .ok leadId referenceCode
        emails := [] }

/-- Response of GET /api/company/:companyId/leads. -/
structure ListResp where
  success : Bool
  leads : List MemLead
  total : Nat
  deriving Repr, DecidableEq

/-- GET /api/company/:companyId/leads (server.js lines 357-375).  Filters
the IN-MEMORY `leads` array by company, optionally by status, and sorts
newest-created-first (`new Date(b.createdAt) - new Date(a.createdAt)`;
ISO strings compare lexicographically in the same order). -/
def listLeads (st : ServerState) (companyId : String) (statusFilter : Option String) : ListResp :=
  let companyLeads : List MemLead := st.memLeads.filter (fun l => l.companyId == companyId)
  let filtered : List MemLead :=
    match statusFilter with
    | some s => companyLeads.filter (fun l => l.status == s)
    | none => companyLeads
  let sorted := filtered.mergeSort (fun a b => decide (b.createdAt ≤ a.createdAt))
  { success := true, leads := sorted, total := sorted.length }

/-- Response of PUT /api/lead/:leadId. -/
inductive UpdateResp where
  | ok (lead : MemLead)
  | notFound
  deriving Repr, DecidableEq

/-- The field mutations PUT /api/lead/:leadId applies to the found lead
(server.js lines 388-399): status if truthy; projectValue — and, when the
request status is exactly `'won'`, wonDate — only if projectValue is
truthy; updatedAt always. -/
def applyLeadUpdate (status : Option String) (projectValue : Option Int) (now : String)
    (l : MemLead) : MemLead :=
  let l1 := if truthyStr status then { l with status := status.getD "" } else l
  let l2 :=
    if truthyInt projectValue then
      let l2a := { l1 with projectValue := projectValue }
      if status == some "won" then { l2a with wonDate := some now } else l2a
    else l1
  { l2 with updatedAt := now }

/-- Replace the first element satisfying `p` by its image under `f`
(JS `Array.prototype.find` returns the first match, which the handler
then mutates in place). -/
def updateFirst (p : α → Bool) (f : α → α) : List α → List α
  | [] => []
  | x :: xs => if p x then f x :: xs else x :: updateFirst p f xs

/-- PUT /api/lead/:leadId (server.js lines 378-405), over the in-memory
`leads` array. -/
def updateLead (st : ServerState) (leadId : String) (status : Option String)
    (projectValue : Option Int) (now : String) : ServerState × UpdateResp :=
  match st.memLeads.find? (fun l => l.id == leadId) with
  | none => (st, .notFound)
  | some l =>
    let upd := applyLeadUpdate status projectValue now
    ({ st with memLeads := updateFirst (fun x => x.id == leadId) upd st.memLeads }, .ok (upd l))

/-- `x.toFixed(1)` on an exact rational. -/
def toFixedOne (q : Rat) : Rat := (round (q * 10) : Int) / 10

/-- `x.toFixed(2)` on an exact rational. -/
def toFixedTwo (q : Rat) : Rat := (round (q * 100) : Int) / 100

/-- Stats object of GET /api/company/:companyId/stats. -/
structure Stats where
  totalLeads : Nat
  newLeads : Nat
  quotedLeads : Nat
  wonLeads : Nat
  lostLeads : Nat
  totalRevenue : Int
  commissionAmount : Rat
  conversionRate : Rat
  averageProjectValue : Rat
  deriving Repr, DecidableEq

/-- The lead population a stats request aggregates over (server.js lines
412-418): the company's in-memory leads, optionally restricted to those
whose `createdAt` ISO string starts with the `YYYY-MM` month filter. -/
def statsLeadPool (st : ServerState) (companyId : String) (month : Option String) : List MemLead :=
  let companyLeads := st.memLeads.filter (fun l => l.companyId == companyId)
  match month with
  | some m => companyLeads.filter (fun l => l.createdAt.startsWith m)
  | none => companyLeads

/-- GET /api/company/:companyId/stats (server.js lines 408-444).
`company?.commissionRate || 0.02` makes a missing company — or a zero
stored rate — fall back to 2%.  `conversionRate` is
`(wonLeads.length / totalLeads * 100).toFixed(1)` guarded by
`totalLeads > 0 ? ... : 0`. -/
def getStats (st : ServerState) (companyId : String) (month : Option String) : Stats :=
  let pool := statsLeadPool st companyId month
  let totalLeads := pool.length
  let wonLeads := pool.filter (fun l => l.status == "won")
  let totalRevenue : Int := wonLeads.foldl (fun s l => s + l.projectValue.getD 0) 0
  let commissionRate : Rat :=
    match st.companies.find? (fun c => c.id == companyId) with
    | some c => if c.commissionRate == 0 then 2 / 100 else c.commissionRate
    | none => 2 / 100
  { totalLeads := totalLeads
    newLeads := (pool.filter (fun l => l.status == "new")).length
    quotedLeads := (pool.filter (fun l => l.status == "quoted")).length
    wonLeads := wonLeads.length
    lostLeads := (pool.filter (fun l => l.status == "lost")).length
    totalRevenue := totalRevenue
    commissionAmount := (totalRevenue : Rat) * commissionRate
    conversionRate :=
      if totalLeads > 0 then toFixedOne ((wonLeads.length : Rat) / (totalLeads : Rat) * 100) else 0
    averageProjectValue :=
      if wonLeads.length > 0 then toFixedTwo ((totalRevenue : Rat) / (wonLeads.length : Rat)) else 0 }

/-- The `JOIN companies c ON l.company_id = c.id` in each follow-up
query (part_001 lines 77-114): a lead row is only selected when a
matching `companies` row exists. -/
def leadCompanyExists (cs : List Company) (l : DbLead) : Bool :=
  cs.any (fun c => c.id == l.company_id)

/-- First follow-up selection (part_001 lines 77-84):
`status = 'new' AND created_at < NOW() - INTERVAL '3 days' AND
follow_up_1_sent = false`, joined against `companies`.  The SQL age test
`created_at < now - 3 days` is written additively
(`created_at + 3 days < now`) to stay inside `Nat`. -/
def stage1Sel (cs : List Company) (now : Nat) (l : DbLead) : Bool :=
  leadCompanyExists cs l && l.status == "new"
    && decide (l.created_at + 3 * day < now) && !l.follow_up_1_sent

/-- Second follow-up selection (part_001 lines 91-99): `status = 'new'
AND created_at < NOW() - INTERVAL '7 days' AND follow_up_1_sent = true
AND follow_up_2_sent = false`. -/
def stage2Sel (cs : List Company) (now : Nat) (l : DbLead) : Bool :=
  leadCompanyExists cs l && l.status == "new"
    && decide (l.created_at + 7 * day < now) && l.follow_up_1_sent && !l.follow_up_2_sent

/-- Final follow-up selection (part_001 lines 106-114): `status = 'new'
AND created_at < NOW() - INTERVAL '14 days' AND follow_up_2_sent = true
AND follow_up_3_sent = false`. -/
def stage3Sel (cs : List Company) (now : Nat) (l : DbLead) : Bool :=
  leadCompanyExists cs l && l.status == "new"
    && decide (l.created_at + 14 * day < now) && l.follow_up_2_sent && !l.follow_up_3_sent

/-- `sendFirstFollowUp` on one row (part_001 lines 127-161): the flag
update `UPDATE leads SET follow_up_1_sent = true WHERE id = $1` runs only
after `sgMail.send` succeeded; a failed send leaves the row unchanged. -/
def stage1Step (cs : List Company) (sendOk : String → Bool) (now : Nat) (l : DbLead) : DbLead :=
  if stage1Sel cs now l && sendOk l.id then { l with follow_up_1_sent := true } else l

/-- `sendSecondFollowUp` on one row (part_001 lines 164-201):
`UPDATE leads SET follow_up_2_sent = true WHERE id = $1`. -/
def stage2Step (cs : List Company) (sendOk : String → Bool) (now : Nat) (l : DbLead) : DbLead :=
  if stage2Sel cs now l && sendOk l.id then { l with follow_up_2_sent := true } else l

/-- `sendFinalFollowUp` on one row (part_001 lines 204-242):
`UPDATE leads SET follow_up_3_sent = true, status = $1 WHERE id = $2`
with `$1 = 'closed'`. -/
def stage3Step (cs : List Company) (sendOk : String → Bool) (now : Nat) (l : DbLead) : DbLead :=
  if stage3Sel cs now l && sendOk l.id then
    { l with follow_up_3_sent := true, status := "closed" } else l

/-- The first follow-up pass over the whole table. -/
def applyStage1 (cs : List Company) (sendOk : String → Bool) (now : Nat)
    (ls : List DbLead) : List DbLead :=
  ls.map (stage1Step cs sendOk now)

/-- The second follow-up pass over the whole table. -/
def applyStage2 (cs : List Company) (sendOk : String → Bool) (now : Nat)
    (ls : List DbLead) : List DbLead :=
  ls.map (stage2Step cs sendOk now)

/-- The final follow-up pass over the whole table. -/
def applyStage3 (cs : List Company) (sendOk : String → Bool) (now : Nat)
    (ls : List DbLead) : List DbLead :=
  ls.map (stage3Step cs sendOk now)

/-- One run of `sendFollowUpEmails` (part_001 lines 74-124).  The three
stage queries execute sequentially, each over the table as left by the
previous stage; per-lead send outcomes are the oracle `sendOk`, and a
failed send only skips that lead's flag update (part_001 lines 158-160,
198-200, 239-241). -/
def sendFollowUpEmails (st : ServerState) (sendOk : String → Bool) (now : Nat) : ServerState :=
  let ls1 := applyStage1 st.dbCompanies sendOk now st.dbLeads
  let ls2 := applyStage2 st.dbCompanies sendOk now ls1
  let ls3 := applyStage3 st.dbCompanies sendOk now ls2
  { st with dbLeads := ls3 }

/-! ## Shared fixtures and helper lemmas -/

/-- The demo tenant seeded by /api/demo/create (server.js lines 546-563),
used as a concrete company in witnesses and counterexamples. -/
def demoCompany : Company :=
  { id := "demo_company", apiKey := "rva_demo_key", name := "Demo Bathrooms Ltd",
    email := "demo@example.com", password := "ZGVtbzEyMw==", phone := "07700 900123",
    website := "www.demobathrooms.com", trade := "bathroom", commissionRate := 2 / 100,
    status := "trial", createdAt := "2025-01-01T00:00:00.000Z",
    trialEndsAt := "2025-01-15T00:00:00.000Z" }

/-- A concrete in-memory lead in its initial captured shape. -/
def memLead1 : MemLead :=
  { id := "L1", companyId := "demo_company", customerName := "Jane Doe",
    email := "jane@example.com", phone := "07700000000", postcode := "", projectBudget := "",
    startDate := "", notes := "", originalImage := "", generatedImage := "", prompt := "",
    status := "new", projectValue := none, wonDate := none, followUp1Sent := false,
    followUp2Sent := false, followUp3Sent := false,
    createdAt := "2025-01-01T00:00:00.000Z", updatedAt := "2025-01-01T00:00:00.000Z" }

/-- A concrete database lead that has already received the first two
follow-ups and is still "new". -/
def dbLead14 : DbLead :=
  { id := "D1", company_id := "demo_company", customer_name := "Old Lead",
    email := "old@example.com", phone := "07700000001", original_image := none,
    generated_image := none, prompt := none, reference_code := "RV-00000000",
    status := "new", project_value := none, won_date := none,
    follow_up_1_sent := true, follow_up_2_sent := true, follow_up_3_sent := false,
    created_at := 0, updated_at := 0 }

/-- A send oracle under which every `sgMail.send` succeeds. -/
def allSendsSucceed : String → Bool := fun _ => true

/-- A server state holding only the demo company: both company stores
populated, both lead stores empty. -/
def emptyDemoState : ServerState :=
  { companies := [demoCompany], dbCompanies := [demoCompany], memLeads := [], dbLeads := [] }

/-- The result of capturing Jane Doe's lead for `demo_company` on the
empty demo state (a concrete uuidv4 supplied for `uuidv4()`). -/
def janeCaptureOut : CaptureOut :=
  captureLead emptyDemoState (some "demo_company") (some "Jane Doe") (some "jane@example.com")
    (some "07700000000") none none none "a1b2c3d4-e5f6-4a7b-8c9d-0e1f2a3b4c5d" 1000

/-- A server state whose in-memory lead array holds exactly `memLead1`. -/
def putState : ServerState :=
  { companies := [demoCompany], dbCompanies := [demoCompany], memLeads := [memLead1],
    dbLeads := [] }

/-- A server state whose database lead table holds exactly `dbLead14`. -/
def schedState : ServerState :=
  { companies := [demoCompany], dbCompanies := [demoCompany], memLeads := [],
    dbLeads := [dbLead14] }

/-- A database lead a human has already marked "contacted". -/
def contactedLead : DbLead :=
  { dbLead14 with
    id := "D2"
    status := "contacted"
    follow_up_1_sent := false
    follow_up_2_sent := false }

/-- A server state whose database lead table holds exactly `contactedLead`. -/
def contactedState : ServerState :=
  { companies := [demoCompany], dbCompanies := [demoCompany], memLeads := [],
    dbLeads := [contactedLead] }

lemma stage1Step_id (cs sendOk now l) : (stage1Step cs sendOk now l).id = l.id := by
  unfold stage1Step; split <;> rfl

lemma stage2Step_id (cs sendOk now l) : (stage2Step cs sendOk now l).id = l.id := by
  unfold stage2Step; split <;> rfl

lemma stage3Step_id (cs sendOk now l) : (stage3Step cs sendOk now l).id = l.id := by
  unfold stage3Step; split <;> rfl

lemma stage1Step_ref (cs sendOk now l) :
    (stage1Step cs sendOk now l).reference_code = l.reference_code := by
  unfold stage1Step; split <;> rfl

lemma stage2Step_ref (cs sendOk now l) :
    (stage2Step cs sendOk now l).reference_code = l.reference_code := by
  unfold stage2Step; split <;> rfl

lemma stage3Step_ref (cs sendOk now l) :
    (stage3Step cs sendOk now l).reference_code = l.reference_code := by
  unfold stage3Step; split <;> rfl

/-- Stage 1 only touches `follow_up_1_sent`. -/
lemma stage1Step_fields (cs sendOk now l) :
    (stage1Step cs sendOk now l).company_id = l.company_id ∧
    (stage1Step cs sendOk now l).status = l.status ∧
    (stage1Step cs sendOk now l).created_at = l.created_at ∧
    (stage1Step cs sendOk now l).follow_up_2_sent = l.follow_up_2_sent ∧
    (stage1Step cs sendOk now l).follow_up_3_sent = l.follow_up_3_sent := by
  unfold stage1Step; split <;> exact ⟨rfl, rfl, rfl, rfl, rfl⟩

/-- Stage 2 only touches `follow_up_2_sent`. -/
lemma stage2Step_fields (cs sendOk now l) :
    (stage2Step cs sendOk now l).company_id = l.company_id ∧
    (stage2Step cs sendOk now l).status = l.status ∧
    (stage2Step cs sendOk now l).created_at = l.created_at ∧
    (stage2Step cs sendOk now l).follow_up_1_sent = l.follow_up_1_sent ∧
    (stage2Step cs sendOk now l).follow_up_3_sent = l.follow_up_3_sent := by
  unfold stage2Step; split <;> exact ⟨rfl, rfl, rfl, rfl, rfl⟩

/-- Each stage can only raise its flag, never lower any. -/
lemma stage1Step_mono (cs sendOk now l) :
    (l.follow_up_1_sent = true → (stage1Step cs sendOk now l).follow_up_1_sent = true) ∧
    (l.follow_up_2_sent = true → (stage1Step cs sendOk now l).follow_up_2_sent = true) ∧
    (l.follow_up_3_sent = true → (stage1Step cs sendOk now l).follow_up_3_sent = true) := by
  unfold stage1Step; split
  · exact ⟨fun _ => rfl, fun h => h, fun h => h⟩
  · exact ⟨fun h => h, fun h => h, fun h => h⟩

lemma stage2Step_mono (cs sendOk now l) :
    (l.follow_up_1_sent = true → (stage2Step cs sendOk now l).follow_up_1_sent = true) ∧
    (l.follow_up_2_sent = true → (stage2Step cs sendOk now l).follow_up_2_sent = true) ∧
    (l.follow_up_3_sent = true → (stage2Step cs sendOk now l).follow_up_3_sent = true) := by
  unfold stage2Step; split
  · exact ⟨fun h => h, fun _ => rfl, fun h => h⟩
  · exact ⟨fun h => h, fun h => h, fun h => h⟩

lemma stage3Step_mono (cs sendOk now l) :
    (l.follow_up_1_sent = true → (stage3Step cs sendOk now l).follow_up_1_sent = true) ∧
    (l.follow_up_2_sent = true → (stage3Step cs sendOk now l).follow_up_2_sent = true) ∧
    (l.follow_up_3_sent = true → (stage3Step cs sendOk now l).follow_up_3_sent = true) := by
  unfold stage3Step; split
  · exact ⟨fun h => h, fun h => h, fun _ => rfl⟩
  · exact ⟨fun h => h, fun h => h, fun h => h⟩

/-- A lead whose status is not "new" is never selected, hence fixed by
every stage step. -/
lemma stageSteps_fix_of_status_ne (cs : List Company) (sendOk : String → Bool) (now : Nat)
    (l : DbLead) (h : l.status ≠ "new") :
    stage1Sel cs now l = false ∧ stage2Sel cs now l = false ∧ stage3Sel cs now l = false ∧
    stage1Step cs sendOk now l = l ∧ stage2Step cs sendOk now l = l ∧
    stage3Step cs sendOk now l = l := by
  have hs : (l.status == "new") = false := beq_eq_false_iff_ne.mpr h
  have h1 : stage1Sel cs now l = false := by simp [stage1Sel, hs]
  have h2 : stage2Sel cs now l = false := by simp [stage2Sel, hs]
  have h3 : stage3Sel cs now l = false := by simp [stage3Sel, hs]
  refine ⟨h1, h2, h3, ?_, ?_, ?_⟩ <;> simp [stage1Step, stage2Step, stage3Step, h1, h2, h3]

/-- `updateFirst` sends the first `p`-match through `f`. -/
lemma updateFirst_find_mem {p : α → Bool} {f : α → α} {ls : List α} {x : α}
    (h : ls.find? p = some x) : f x ∈ updateFirst p f ls := by
  induction ls with
  | nil => simp [List.find?] at h
  | cons y ys ih =>
    by_cases hy : p y
    · rw [List.find?_cons_of_pos _ hy] at h
      cases h
      simp [updateFirst, hy]
    · rw [List.find?_cons_of_neg _ hy] at h
      simp [updateFirst, hy, ih h]

/-- Every element of `updateFirst p f ls` is an old element or the image
of an old element under `f`. -/
lemma updateFirst_mem {p : α → Bool} {f : α → α} {ls : List α} {x : α}
    (h : x ∈ ls) : x ∈ updateFirst p f ls ∨ f x ∈ updateFirst p f ls := by
  induction ls with
  | nil => simp at h
  | cons y ys ih =>
    rcases List.mem_cons.mp h with rfl | hmem
    · by_cases hy : p x
      · right; simp [updateFirst, hy]
      · left; simp [updateFirst, hy]
    · by_cases hy : p y
      · left; simp [updateFirst, hy, hmem]
      · rcases ih hmem with h' | h'
        · left; simp [updateFirst, hy, h']
        · right; simp [updateFirst, hy, h']

/-- The PUT field mutations never touch id, creation time or the three
follow-up flags. -/
lemma applyLeadUpdate_fixed (status : Option String) (projectValue : Option Int)
    (now : String) (l : MemLead) :
    (applyLeadUpdate status projectValue now l).id = l.id ∧
    (applyLeadUpdate status projectValue now l).createdAt = l.createdAt ∧
    (applyLeadUpdate status projectValue now l).followUp1Sent = l.followUp1Sent ∧
    (applyLeadUpdate status projectValue now l).followUp2Sent = l.followUp2Sent ∧
    (applyLeadUpdate status projectValue now l).followUp3Sent = l.followUp3Sent := by
  unfold applyLeadUpdate
  dsimp only
  split <;> split <;> first
    | exact ⟨rfl, rfl, rfl, rfl, rfl⟩
    | (split <;> exact ⟨rfl, rfl, rfl, rfl, rfl⟩)

/-- Uppercasing a hex digit of either case yields an uppercase
alphanumeric character. -/
lemma toUpper_hex_isUpperAlnum (c : Char) (hc : isHexDigitChar c = true) :
    isUpperAlnum c.toUpper = true := by
  simp only [isHexDigitChar, Bool.or_eq_true] at hc
  rcases hc with hc | hc
  · have hm : c ∈ hexLowerChars := of_decide_eq_true hc
    simp only [hexLowerChars, decDigitChars, hexLetterChars, List.mem_append, List.mem_cons,
      List.not_mem_nil, or_false] at hm
    rcases hm with ((rfl | rfl | rfl | rfl | rfl) | (rfl | rfl | rfl | rfl | rfl))
      | ((rfl | rfl | rfl) | (rfl | rfl | rfl)) <;> decide
  · have hm : c ∈ hexUpperLetterChars := of_decide_eq_true hc
    simp only [hexUpperLetterChars, List.mem_append, List.mem_cons,
      List.not_mem_nil, or_false] at hm
    rcases hm with (rfl | rfl | rfl) | (rfl | rfl | rfl) <;> decide

/-- A scheduler run never changes any lead's id or reference code. -/
lemma scheduler_preserves_id_ref (st : ServerState) (sendOk : String → Bool) (now : Nat) :
    (sendFollowUpEmails st sendOk now).dbLeads.map (fun l => (l.id, l.reference_code))
      = st.dbLeads.map (fun l => (l.id, l.reference_code)) := by
  unfold sendFollowUpEmails applyStage1 applyStage2 applyStage3
  dsimp only
  rw [List.map_map, List.map_map, List.map_map]
  induction st.dbLeads with
  | nil => rfl
  | cons x xs ih =>
    simp only [List.map_cons, ih, Function.comp_apply, List.cons.injEq, and_true]
    rw [stage3Step_id, stage3Step_ref, stage2Step_id, stage2Step_ref,
      stage1Step_id, stage1Step_ref]

/-- PUT /api/lead/:leadId never touches the database lead table. -/
lemma updateLead_preserves_dbLeads (st : ServerState) (leadId : String)
    (status : Option String) (projectValue : Option Int) (now : String) :
    (updateLead st leadId status projectValue now).1.dbLeads = st.dbLeads := by
  unfold updateLead
  cases st.memLeads.find? (fun l => l.id == leadId) <;> rfl

/-- POST /api/lead leaves every pre-existing database lead in place
unchanged (it only ever appends). -/
lemma captureLead_preserves_existing (st : ServerState)
    (companyId customerName email phone oi gi pr : Option String) (leadId : String) (now : Nat)
    (l : DbLead) (hmem : l ∈ st.dbLeads) :
    l ∈ (captureLead st companyId customerName email phone oi gi pr leadId now).state.dbLeads := by
  unfold captureLead
  split
  · exact hmem
  · dsimp only
    split
    · exact hmem
    · exact List.mem_append_left _ hmem

/-! ## Claim theorems -/

/-- C5: the POST /api/lead handler dispatches NO email at all — for every
request, valid or not, the set of emails sent while handling the capture
is empty (server.js line 341 is only the comment `TODO: Send emails`;
`sendCustomerEmail` / `sendCompanyNotification`, lines 956-1043, are
never invoked).  This contradicts the claim that every successful
capture triggers a customer confirmation and a company alert. -/
theorem captureLead_sends_no_emails (st : ServerState)
    (companyId customerName email phone oi gi pr : Option String)
    (leadId : String) (now : Nat) :
    (captureLead st companyId customerName email phone oi gi pr leadId now).emails = [] := by
  unfold captureLead
  split
  · rfl
  · dsimp only
    split <;> rfl

/-- C9: a capture request in which any of companyId, customerName, email
or phone is absent is answered with the 400 validation error
"Missing required fields", and has no side effect: the state is returned
unchanged and no email is sent. -/
theorem captureLead_missing_field_no_side_effect (st : ServerState)
    (companyId customerName email phone oi gi pr : Option String)
    (leadId : String) (now : Nat)
    (h : companyId = none ∨ customerName = none ∨ email = none ∨ phone = none) :
    captureLead st companyId customerName email phone oi gi pr leadId now =
      { state := st, resp := .badRequest "Missing required fields", emails := [] } := by
  rcases h with rfl | rfl | rfl | rfl <;> simp [captureLead, truthyStr]

/-- C9 witness: capturing with companyId absent on the demo state is
rejected and changes nothing. -/
theorem captureLead_missing_field_witness :
    captureLead emptyDemoState none (some "Jane Doe") (some "jane@example.com")
        (some "07700000000") none none none "a1b2c3d4-e5f6-4a7b-8c9d-0e1f2a3b4c5d" 1000 =
      { state := emptyDemoState, resp := .badRequest "Missing required fields", emails := [] } :=
  captureLead_missing_field_no_side_effect emptyDemoState none (some "Jane Doe")
    (some "jane@example.com") (some "07700000000") none none none
    "a1b2c3d4-e5f6-4a7b-8c9d-0e1f2a3b4c5d" 1000 (Or.inl rfl)

/-- C1: capturing Jane Doe's lead for `demo_company` succeeds and stores
the lead — with status "new" — in the DATABASE lead table, but the
subsequent GET /api/company/demo_company/leads reads the separate
IN-MEMORY lead array and therefore returns an empty list that does not
include the captured lead. -/
theorem captured_lead_missing_from_listing :
    janeCaptureOut.resp = .ok "a1b2c3d4-e5f6-4a7b-8c9d-0e1f2a3b4c5d" "RV-A1B2C3D4" ∧
    janeCaptureOut.state.dbLeads.map (fun l => (l.id, l.company_id, l.status))
      = [("a1b2c3d4-e5f6-4a7b-8c9d-0e1f2a3b4c5d", "demo_company", "new")] ∧
    listLeads janeCaptureOut.state "demo_company" none
      = { success := true, leads := [], total := 0 } := by
  refine ⟨by decide, by decide, ?_⟩
  have hm : janeCaptureOut.state.memLeads = [] := rfl
  simp [listLeads, hm]

/-- C3 counterexample: a PUT that sets an existing lead's status to
"won" WITHOUT supplying a project value stamps no won-date — the stored
lead has status "won" but wonDate still unset. -/
theorem update_won_without_value_leaves_wonDate_unset :
    (updateLead putState "L1" (some "won") none "2025-01-05T00:00:00.000Z").2
      = .ok { memLead1 with status := "won", updatedAt := "2025-01-05T00:00:00.000Z" } ∧
    (updateLead putState "L1" (some "won") none "2025-01-05T00:00:00.000Z").1.memLeads
      = [{ memLead1 with status := "won", updatedAt := "2025-01-05T00:00:00.000Z" }] ∧
    (({ memLead1 with status := "won", updatedAt := "2025-01-05T00:00:00.000Z" } : MemLead)).wonDate = none := by
  refine ⟨by decide, by decide, rfl⟩

/-- C3 amended: when the PUT supplies status "won" TOGETHER WITH a
truthy (non-zero) project value, the stored lead gets status "won" and a
won-date equal to the update time (hence not earlier than creation). -/
theorem update_won_with_value_stamps_wonDate (st : ServerState) (leadId : String) (v : Int)
    (now : String) (l : MemLead)
    (hfind : st.memLeads.find? (fun x => x.id == leadId) = some l)
    (hv : v ≠ 0) (hts : l.createdAt ≤ now) :
    ∃ l', (updateLead st leadId (some "won") (some v) now).2 = .ok l' ∧
      l'.status = "won" ∧ l'.wonDate = some now ∧ l'.projectValue = some v ∧
      l'.createdAt = l.createdAt ∧ l'.createdAt ≤ now ∧ l'.updatedAt = now ∧
      l' ∈ (updateLead st leadId (some "won") (some v) now).1.memLeads := by
  have htr : truthyStr (some "won") = true := rfl
  have htv : truthyInt (some v) = true := by simp [truthyInt, hv]
  have hupd : applyLeadUpdate (some "won") (some v) now l =
      { l with status := "won", projectValue := some v, wonDate := some now, updatedAt := now } := by
    simp [applyLeadUpdate, htr, htv]
  refine ⟨applyLeadUpdate (some "won") (some v) now l, ?_, ?_, ?_, ?_, ?_, ?_, ?_, ?_⟩
  · simp only [updateLead, hfind]
  · rw [hupd]
  · rw [hupd]
  · rw [hupd]
  · rw [hupd]
  · rw [hupd]; exact hts
  · rw [hupd]
  · simp only [updateLead, hfind]
    exact updateFirst_find_mem hfind

/-- C3-amended witness: updating `memLead1` with status "won" and
projectValue 15000 stamps wonDate with the update time. -/
theorem update_won_with_value_witness :
    ∃ l', (updateLead putState "L1" (some "won") (some 15000) "2025-01-05T00:00:00.000Z").2
        = .ok l' ∧
      l'.status = "won" ∧ l'.wonDate = some "2025-01-05T00:00:00.000Z" ∧
      l'.projectValue = some (15000 : Int) ∧
      l'.createdAt = memLead1.createdAt ∧ l'.createdAt ≤ "2025-01-05T00:00:00.000Z" ∧
      l'.updatedAt = "2025-01-05T00:00:00.000Z" ∧
      l' ∈ (updateLead putState "L1" (some "won") (some 15000)
        "2025-01-05T00:00:00.000Z").1.memLeads :=
  update_won_with_value_stamps_wonDate putState "L1" 15000 "2025-01-05T00:00:00.000Z" memLead1
    rfl (by decide) (le_of_lt (String.lt_iff_toList_lt.mpr (by decide)))

/-- C10: when the supplied projectValue is falsy (absent or 0), the PUT
leaves the lead's projectValue and wonDate unchanged — even when status
"won" is supplied — while a truthy status and updatedAt are still
written; in particular an explicit project value of 0 is never stored. -/
theorem update_falsy_projectValue_preserved (st : ServerState) (leadId : String)
    (status : Option String) (projectValue : Option Int) (now : String) (l : MemLead)
    (hfind : st.memLeads.find? (fun x => x.id == leadId) = some l)
    (hpv : truthyInt projectValue = false) :
    (updateLead st leadId status projectValue now).2
        = .ok (applyLeadUpdate status projectValue now l) ∧
    (applyLeadUpdate status projectValue now l).projectValue = l.projectValue ∧
    (applyLeadUpdate status projectValue now l).wonDate = l.wonDate ∧
    (applyLeadUpdate status projectValue now l).updatedAt = now ∧
    (truthyStr status = true →
      (applyLeadUpdate status projectValue now l).status = status.getD "") ∧
    (truthyStr status = false →
      (applyLeadUpdate status projectValue now l).status = l.status) ∧
    applyLeadUpdate status projectValue now l
      ∈ (updateLead st leadId status projectValue now).1.memLeads := by
  refine ⟨?_, ?_, ?_, ?_, ?_, ?_, ?_⟩
  · simp only [updateLead, hfind]
  · simp only [applyLeadUpdate, hpv, Bool.false_eq_true, if_false]
    split <;> rfl
  · simp only [applyLeadUpdate, hpv, Bool.false_eq_true, if_false]
    split <;> rfl
  · simp only [applyLeadUpdate, hpv, Bool.false_eq_true, if_false]
  · intro h
    simp only [applyLeadUpdate, hpv, h, Bool.false_eq_true, if_false, if_true]
  · intro h
    simp only [applyLeadUpdate, hpv, h, Bool.false_eq_true, if_false]
  · simp only [updateLead, hfind]
    exact updateFirst_find_mem hfind

/-- C10 witness: a PUT carrying status "won" and an explicit
projectValue of 0 writes the status but leaves projectValue and wonDate
untouched. -/
theorem update_falsy_projectValue_witness :
    (updateLead putState "L1" (some "won") (some 0) "2025-01-05T00:00:00.000Z").2
        = .ok (applyLeadUpdate (some "won") (some 0) "2025-01-05T00:00:00.000Z" memLead1) ∧
    (applyLeadUpdate (some "won") (some 0) "2025-01-05T00:00:00.000Z" memLead1).projectValue
        = memLead1.projectValue ∧
    (applyLeadUpdate (some "won") (some 0) "2025-01-05T00:00:00.000Z" memLead1).wonDate
        = memLead1.wonDate :=
  have h := update_falsy_projectValue_preserved putState "L1" (some "won") (some 0)
    "2025-01-05T00:00:00.000Z" memLead1 rfl rfl
  ⟨h.1, h.2.1, h.2.2.1⟩

/-- C2 counterexample: a lead whose age at the run instant is EXACTLY 14
days (with status "new", flag2 = true, flag3 = false, its company
present, every send succeeding) is not selected by the final follow-up —
the SQL predicate is the strict `created_at < NOW() - INTERVAL '14
days'` — so the run leaves it unchanged, still "new" with flag3 false. -/
theorem final_followup_boundary_not_closed :
    dbLead14.status = "new" ∧ dbLead14.follow_up_2_sent = true ∧
    dbLead14.follow_up_3_sent = false ∧
    dbLead14.created_at + 14 * day ≤ 14 * day ∧
    leadCompanyExists schedState.dbCompanies dbLead14 = true ∧
    (sendFollowUpEmails schedState allSendsSucceed (14 * day)).dbLeads = [dbLead14] := by
  decide

/-- C2 amended: a "new" lead STRICTLY older than 14 days with flag2 set
and flag3 unset, whose company row exists, is closed by a run whose
final-follow-up send for it succeeds: afterwards it has flag3 = true and
status "closed", and no follow-up stage can ever select it again. -/
theorem final_followup_closes_lead (st : ServerState) (sendOk : String → Bool) (now : Nat)
    (l : DbLead) (hmem : l ∈ st.dbLeads) (hst : l.status = "new")
    (hage : l.created_at + 14 * day < now)
    (h2 : l.follow_up_2_sent = true) (h3 : l.follow_up_3_sent = false)
    (hco : leadCompanyExists st.dbCompanies l = true)
    (hsend : sendOk l.id = true) :
    ∃ l', l' ∈ (sendFollowUpEmails st sendOk now).dbLeads ∧ l'.id = l.id ∧
      l'.follow_up_3_sent = true ∧ l'.status = "closed" ∧
      ∀ cs2 now2, stage1Sel cs2 now2 l' = false ∧ stage2Sel cs2 now2 l' = false ∧
        stage3Sel cs2 now2 l' = false := by
  obtain ⟨f1c, f1s, f1t, f1f2, f1f3⟩ := stage1Step_fields st.dbCompanies sendOk now l
  have hid1 : (stage1Step st.dbCompanies sendOk now l).id = l.id :=
    stage1Step_id st.dbCompanies sendOk now l
  have hco' : List.any st.dbCompanies (fun c => c.id == l.company_id) = true := hco
  have hsel2 : stage2Sel st.dbCompanies now (stage1Step st.dbCompanies sendOk now l) = false := by
    simp [stage2Sel, f1f2, h2]
  have hstep2 : stage2Step st.dbCompanies sendOk now (stage1Step st.dbCompanies sendOk now l)
      = stage1Step st.dbCompanies sendOk now l := by
    simp [stage2Step, hsel2]
  have hsel3 : stage3Sel st.dbCompanies now (stage1Step st.dbCompanies sendOk now l) = true := by
    simp [stage3Sel, leadCompanyExists, f1c, f1s, hst, f1t, f1f2, h2, f1f3, h3, hage, hco']
  have hsend1 : sendOk (stage1Step st.dbCompanies sendOk now l).id = true := by
    rw [hid1]; exact hsend
  have hstep3 : stage3Step st.dbCompanies sendOk now (stage1Step st.dbCompanies sendOk now l)
      = { stage1Step st.dbCompanies sendOk now l with
          follow_up_3_sent := true, status := "closed" } := by
    simp [stage3Step, hsel3, hsend1]
  refine ⟨{ stage1Step st.dbCompanies sendOk now l with
      follow_up_3_sent := true, status := "closed" }, ?_, hid1, rfl, rfl, ?_⟩
  · have m1 : stage1Step st.dbCompanies sendOk now l
        ∈ applyStage1 st.dbCompanies sendOk now st.dbLeads :=
      List.mem_map_of_mem _ hmem
    have m2 : stage1Step st.dbCompanies sendOk now l
        ∈ applyStage2 st.dbCompanies sendOk now
            (applyStage1 st.dbCompanies sendOk now st.dbLeads) := by
      have hmm := List.mem_map_of_mem (stage2Step st.dbCompanies sendOk now) m1
      rwa [hstep2] at hmm
    have m3 := List.mem_map_of_mem (stage3Step st.dbCompanies sendOk now) m2
    rw [hstep3] at m3
    exact m3
  · intro cs2 now2
    have hne : ({ stage1Step st.dbCompanies sendOk now l with
        follow_up_3_sent := true, status := "closed" } : DbLead).status ≠ "new" := by
      show "closed" ≠ "new"
      decide
    obtain ⟨s1, s2, s3, _, _, _⟩ :=
      stageSteps_fix_of_status_ne cs2 sendOk now2 _ hne
    exact ⟨s1, s2, s3⟩

/-- C2-amended witness: on the one-lead demo state, a run one
millisecond past the 14-day boundary closes `dbLead14`. -/
theorem final_followup_closes_lead_witness :
    ∃ l', l' ∈ (sendFollowUpEmails schedState allSendsSucceed (14 * day + 1)).dbLeads ∧
      l'.id = dbLead14.id ∧ l'.follow_up_3_sent = true ∧ l'.status = "closed" ∧
      ∀ cs2 now2, stage1Sel cs2 now2 l' = false ∧ stage2Sel cs2 now2 l' = false ∧
        stage3Sel cs2 now2 l' = false :=
  final_followup_closes_lead schedState allSendsSucceed (14 * day + 1) dbLead14
    (by decide) rfl (by decide) rfl rfl (by decide) rfl

/-- C7: a lead whose status is not "new" at a scheduler run is selected
by none of the three follow-up stages, whatever its age and flags, and
the run leaves it in the table untouched. -/
theorem non_new_lead_never_followed_up (l : DbLead) (h : l.status ≠ "new") :
    (∀ cs now, stage1Sel cs now l = false ∧ stage2Sel cs now l = false ∧
      stage3Sel cs now l = false) ∧
    (∀ (st : ServerState) (sendOk : String → Bool) (now : Nat), l ∈ st.dbLeads →
      l ∈ (sendFollowUpEmails st sendOk now).dbLeads) := by
  constructor
  · intro cs now
    obtain ⟨s1, s2, s3, _, _, _⟩ := stageSteps_fix_of_status_ne cs (fun _ => true) now l h
    exact ⟨s1, s2, s3⟩
  · intro st sendOk now hmem
    obtain ⟨_, _, _, e1, e2, e3⟩ := stageSteps_fix_of_status_ne st.dbCompanies sendOk now l h
    have m1 : l ∈ applyStage1 st.dbCompanies sendOk now st.dbLeads := by
      have hmm := List.mem_map_of_mem (stage1Step st.dbCompanies sendOk now) hmem
      rwa [e1] at hmm
    have m2 : l ∈ applyStage2 st.dbCompanies sendOk now
        (applyStage1 st.dbCompanies sendOk now st.dbLeads) := by
      have hmm := List.mem_map_of_mem (stage2Step st.dbCompanies sendOk now) m1
      rwa [e2] at hmm
    have m3 := List.mem_map_of_mem (stage3Step st.dbCompanies sendOk now) m2
    rw [e3] at m3
    exact m3

/-- C7 witness: a lead marked "contacted" (here even before day 3, as
its flags are still false) is selected by no stage at age 30 days and
survives a full run unchanged. -/
theorem non_new_lead_witness :
    (stage1Sel [demoCompany] (30 * day) contactedLead = false ∧
      stage2Sel [demoCompany] (30 * day) contactedLead = false ∧
      stage3Sel [demoCompany] (30 * day) contactedLead = false) ∧
    contactedLead ∈ (sendFollowUpEmails contactedState allSendsSucceed (30 * day)).dbLeads :=
  have h := non_new_lead_never_followed_up contactedLead (by decide)
  ⟨h.1 [demoCompany] (30 * day), h.2 contactedState allSendsSucceed (30 * day) (by decide)⟩

/-- C6: follow-up flags are monotonic across every operation.  Lead
capture leaves every existing database lead untouched (it only appends a
new row whose flags default to false); the PUT update endpoint never
writes any follow-up flag; a scheduler run only ever raises flags. -/
theorem followup_flags_monotonic (st : ServerState) :
    (∀ (companyId customerName email phone oi gi pr : Option String)
        (leadId : String) (now : Nat), ∀ l ∈ st.dbLeads,
      l ∈ (captureLead st companyId customerName email phone oi gi pr
        leadId now).state.dbLeads) ∧
    (∀ (leadId : String) (status : Option String) (projectValue : Option Int) (now : String),
      ∀ l ∈ st.memLeads,
      ∃ l', l' ∈ (updateLead st leadId status projectValue now).1.memLeads ∧ l'.id = l.id ∧
        l'.followUp1Sent = l.followUp1Sent ∧ l'.followUp2Sent = l.followUp2Sent ∧
        l'.followUp3Sent = l.followUp3Sent) ∧
    (∀ (sendOk : String → Bool) (now : Nat), ∀ l ∈ st.dbLeads,
      ∃ l', l' ∈ (sendFollowUpEmails st sendOk now).dbLeads ∧ l'.id = l.id ∧
        (l.follow_up_1_sent = true → l'.follow_up_1_sent = true) ∧
        (l.follow_up_2_sent = true → l'.follow_up_2_sent = true) ∧
        (l.follow_up_3_sent = true → l'.follow_up_3_sent = true)) := by
  refine ⟨?_, ?_, ?_⟩
  · intro companyId customerName email phone oi gi pr leadId now l hmem
    exact captureLead_preserves_existing st companyId customerName email phone oi gi pr
      leadId now l hmem
  · intro leadId status projectValue now l hmem
    rcases hfind : st.memLeads.find? (fun x => x.id == leadId) with _ | l0
    · refine ⟨l, ?_, rfl, rfl, rfl, rfl⟩
      simp only [updateLead, hfind]
      exact hmem
    · rcases updateFirst_mem (p := fun x => x.id == leadId)
        (f := applyLeadUpdate status projectValue now) hmem with h' | h'
      · refine ⟨l, ?_, rfl, rfl, rfl, rfl⟩
        simp only [updateLead, hfind]
        exact h'
      · obtain ⟨hid, _, hf1, hf2, hf3⟩ := applyLeadUpdate_fixed status projectValue now l
        refine ⟨applyLeadUpdate status projectValue now l, ?_, hid, hf1, hf2, hf3⟩
        simp only [updateLead, hfind]
        exact h'
  · intro sendOk now l hmem
    refine ⟨stage3Step st.dbCompanies sendOk now (stage2Step st.dbCompanies sendOk now
      (stage1Step st.dbCompanies sendOk now l)), ?_, ?_, ?_, ?_, ?_⟩
    · exact List.mem_map_of_mem _ (List.mem_map_of_mem _ (List.mem_map_of_mem _ hmem))
    · rw [stage3Step_id, stage2Step_id, stage1Step_id]
    · intro h
      exact (stage3Step_mono _ _ _ _).1 ((stage2Step_mono _ _ _ _).1
        ((stage1Step_mono _ _ _ _).1 h))
    · intro h
      exact (stage3Step_mono _ _ _ _).2.1 ((stage2Step_mono _ _ _ _).2.1
        ((stage1Step_mono _ _ _ _).2.1 h))
    · intro h
      exact (stage3Step_mono _ _ _ _).2.2 ((stage2Step_mono _ _ _ _).2.2
        ((stage1Step_mono _ _ _ _).2.2 h))

/-- C6 witness: a scheduler run on the one-lead demo state keeps
`dbLead14`'s already-true flags true. -/
theorem followup_flags_monotonic_witness :
    ∃ l', l' ∈ (sendFollowUpEmails schedState allSendsSucceed (20 * day)).dbLeads ∧
      l'.id = dbLead14.id ∧
      (dbLead14.follow_up_1_sent = true → l'.follow_up_1_sent = true) ∧
      (dbLead14.follow_up_2_sent = true → l'.follow_up_2_sent = true) ∧
      (dbLead14.follow_up_3_sent = true → l'.follow_up_3_sent = true) :=
  (followup_flags_monotonic schedState).2.2 allSendsSucceed (20 * day) dbLead14 (by decide)

/-- C8: the stats conversion rate is exactly 0 when the company has no
matching leads (no division occurs), and otherwise is won-over-total as
a one-decimal percentage. -/
theorem stats_conversion_rate_safe (st : ServerState) (companyId : String)
    (month : Option String) :
    ((statsLeadPool st companyId month).length = 0 →
      (getStats st companyId month).conversionRate = 0) ∧
    (0 < (statsLeadPool st companyId month).length →
      (getStats st companyId month).conversionRate =
        toFixedOne ((((statsLeadPool st companyId month).countP
            (fun l => l.status == "won")) : Rat)
          / ((statsLeadPool st companyId month).length : Rat) * 100)) := by
  constructor
  · intro h
    simp [getStats, h]
  · intro h
    simp [getStats, h, List.countP_eq_length_filter]

/-- C8 witness: a company with zero leads gets conversion rate exactly
0. -/
theorem stats_conversion_rate_witness :
    (getStats emptyDemoState "demo_company" none).conversionRate = 0 :=
  (stats_conversion_rate_safe emptyDemoState "demo_company" none).1 rfl

/-- C4 counterexample: a capture request with all four required fields
present but a companyId matching no company row makes the INSERT violate
the `company_id` foreign key, so the handler answers 500 and persists
nothing — refuting "every valid capture request ... persists the lead
and returns success". -/
theorem capture_unknown_company_fails :
    truthyStr (some "ghost_company") = true ∧ truthyStr (some "Jane Doe") = true ∧
    truthyStr (some "jane@example.com") = true ∧ truthyStr (some "07700000000") = true ∧
    captureLead emptyDemoState (some "ghost_company") (some "Jane Doe")
        (some "jane@example.com") (some "07700000000") none none none
        "a1b2c3d4-e5f6-4a7b-8c9d-0e1f2a3b4c5d" 1000
      = { state := emptyDemoState, resp := .serverError "Failed to capture lead",
          emails := [] } :=
  ⟨rfl, rfl, rfl, rfl, rfl⟩

/-- C4 amended: a capture request whose four required fields are present
(truthy), whose companyId references an existing company row, whose
customerName/email/phone fit the schema's column bounds (255, 255 and 50
characters), and whose generated uuid is fresh and well-formed (as
`uuidv4()` output always is), is persisted with status "new", all
follow-up flags false, and reference code `RV-` + the uuid's first 8 hex
digits uppercased (8 uppercase alphanumerics); the response returns the
lead id and that code; and no later operation — scheduler run, PUT
update, or another capture — ever changes any stored lead's reference
code. -/
theorem capture_valid_persists_with_reference_code (st : ServerState)
    (companyId customerName email phone oi gi pr : Option String) (leadId : String) (now : Nat)
    (hcid : truthyStr companyId = true) (hname : truthyStr customerName = true)
    (hemail : truthyStr email = true) (hphone : truthyStr phone = true)
    (hfresh : st.dbLeads.any (fun l => l.id == leadId) = false)
    (hco : st.dbCompanies.any (fun c => c.id == companyId.getD "") = true)
    (huuid : isUuidString leadId = true)
    (hnamelen : (customerName.getD "").length ≤ 255)
    (hemaillen : (email.getD "").length ≤ 255)
    (hphonelen : (phone.getD "").length ≤ 50) :
    (captureLead st companyId customerName email phone oi gi pr leadId now).resp
        = .ok leadId (mkReferenceCode leadId) ∧
    (∃ s, mkReferenceCode leadId = "RV-" ++ s ∧ s.length = 8 ∧
      s.toList.all isUpperAlnum = true) ∧
    (∃ nl, (captureLead st companyId customerName email phone oi gi pr leadId now).state.dbLeads
        = st.dbLeads ++ [nl] ∧ nl.id = leadId ∧ nl.reference_code = mkReferenceCode leadId ∧
      nl.status = "new" ∧ nl.follow_up_1_sent = false ∧ nl.follow_up_2_sent = false ∧
      nl.follow_up_3_sent = false ∧ nl.created_at = now) ∧
    (∀ (st2 : ServerState) (sendOk : String → Bool) (now2 : Nat),
      (sendFollowUpEmails st2 sendOk now2).dbLeads.map (fun l => (l.id, l.reference_code))
        = st2.dbLeads.map (fun l => (l.id, l.reference_code))) ∧
    (∀ (st2 : ServerState) (lid : String) (stt : Option String) (pv : Option Int) (nw : String),
      (updateLead st2 lid stt pv nw).1.dbLeads = st2.dbLeads) ∧
    (∀ (st2 : ServerState) (c2 n2 e2 p2 o2 g2 r2 : Option String) (lid2 : String) (nw2 : Nat),
      ∀ l ∈ st2.dbLeads,
        l ∈ (captureLead st2 c2 n2 e2 p2 o2 g2 r2 lid2 nw2).state.dbLeads) := by
  have hcond1 : (!truthyStr companyId || !truthyStr customerName || !truthyStr email
      || !truthyStr phone) = false := by
    simp [hcid, hname, hemail, hphone]
  have hcond2 : (st.dbLeads.any (fun l => l.id == leadId)
      || !st.dbCompanies.any (fun c => c.id == companyId.getD "")
      || !isUuidString leadId
      || decide (255 < (customerName.getD "").length)
      || decide (255 < (email.getD "").length)
      || decide (50 < (phone.getD "").length)) = false := by
    simp [hfresh, hco, huuid, Nat.not_lt, hnamelen, hemaillen, hphonelen]
  have huu := huuid
  simp only [isUuidString, Bool.and_eq_true, decide_eq_true_eq] at huu
  obtain ⟨⟨⟨⟨⟨⟨⟨⟨⟨h36, htake⟩, _⟩, _⟩, _⟩, _⟩, _⟩, _⟩, _⟩, _⟩ := huu
  refine ⟨?_, ?_, ?_, ?_, ?_, ?_⟩
  · simp only [captureLead, hcond1, hcond2, Bool.false_eq_true, if_false]
  · refine ⟨String.mk ((leadId.toList.take 8).map Char.toUpper), rfl, ?_, ?_⟩
    · show ((leadId.toList.take 8).map Char.toUpper).length = 8
      rw [List.length_map, List.length_take]
      omega
    · show ((leadId.toList.take 8).map Char.toUpper).all isUpperAlnum = true
      rw [List.all_map]
      refine List.all_eq_true.mpr ?_
      intro c hc
      exact toUpper_hex_isUpperAlnum c (List.all_eq_true.mp htake c hc)
  · refine ⟨DbLead.mk leadId (companyId.getD "") (customerName.getD "") (email.getD "")
      (phone.getD "") oi gi pr (mkReferenceCode leadId) "new" none none false false false
      now now, ?_, rfl, rfl, rfl, rfl, rfl, rfl, rfl⟩
    simp only [captureLead, hcond1, hcond2, Bool.false_eq_true, if_false]
  · intro st2 sendOk now2
    exact scheduler_preserves_id_ref st2 sendOk now2
  · intro st2 lid stt pv nw
    exact updateLead_preserves_dbLeads st2 lid stt pv nw
  · intro st2 c2 n2 e2 p2 o2 g2 r2 lid2 nw2 l hmem
    exact captureLead_preserves_existing st2 c2 n2 e2 p2 o2 g2 r2 lid2 nw2 l hmem

/-- C4-amended witness: Jane Doe's capture on the demo state returns the
lead id with reference code `RV-` + 8 uppercase alphanumerics. -/
theorem capture_valid_witness :
    (captureLead emptyDemoState (some "demo_company") (some "Jane Doe")
        (some "jane@example.com") (some "07700000000") none none none
        "a1b2c3d4-e5f6-4a7b-8c9d-0e1f2a3b4c5d" 1000).resp
      = .ok "a1b2c3d4-e5f6-4a7b-8c9d-0e1f2a3b4c5d"
          (mkReferenceCode "a1b2c3d4-e5f6-4a7b-8c9d-0e1f2a3b4c5d") ∧
    (∃ s, mkReferenceCode "a1b2c3d4-e5f6-4a7b-8c9d-0e1f2a3b4c5d" = "RV-" ++ s ∧
      s.length = 8 ∧ s.toList.all isUpperAlnum = true) :=
  have h := capture_valid_persists_with_reference_code emptyDemoState (some "demo_company")
    (some "Jane Doe") (some "jane@example.com") (some "07700000000") none none none
    "a1b2c3d4-e5f6-4a7b-8c9d-0e1f2a3b4c5d" 1000 rfl rfl rfl rfl rfl rfl (by decide)
    (by decide) (by decide) (by decide)
  ⟨h.1, h.2.1⟩
